import Mathlib

set_option maxHeartbeats 1000000

namespace RunwayR2

/-!
Shallow embedding of the Cloudflare Pages function in src/functions/ai.js
(the KV-and-upscale-aware revision, which the repository's design notes treat
as authoritative).  The handler multiplexes two operations over one endpoint:
a multipart submission (upload image, start a generation job, write a
bookkeeping record into the TASK_INFO_KV index) and a JSON status poll
(query the provider, chain an upscale job, or finalize by copying the output
video into the object store and deleting the bookkeeping records).

External interactions (the provider's HTTP responses, the video download,
object-store write success) are supplied as oracle inputs; every externally
visible write the handler performs is recorded in an effect log.
-/

/-- The bookkeeping record stored in the TASK_INFO_KV index (ai.js line 74):
destination video key, public base URL, whether a 4K upscale was requested,
and the id of the original generation task. -/
structure TaskRecord where
  videoKey : String
  r2PublicUrl : String
  upscale : Bool
  originalTaskId : String
  deriving DecidableEq, Repr

/-- The key-value index, as an association list keyed by task id. -/
abbrev KV := List (String × TaskRecord)

/-- KV get: first binding for the key, if any. -/
def kvGet : KV → String → Option TaskRecord
  | [], _ => none
  | (k, r) :: rest, x => if x = k then some r else kvGet rest x

/-- KV delete: remove every binding for the key. -/
def kvDelete : KV → String → KV
  | [], _ => []
  | (k, r) :: rest, x => if k = x then kvDelete rest x else (k, r) :: kvDelete rest x

/-- KV put: bind the key to the record, replacing any previous binding. -/
def kvPut (kv : KV) (k : String) (r : TaskRecord) : KV :=
  (k, r) :: kvDelete kv k

/-- Number of bindings a key has in the index. -/
def countKey : KV → String → Nat
  | [], _ => 0
  | (k, _) :: rest, x => (if k = x then 1 else 0) + countKey rest x

/-- Externally visible writes and outbound provider calls of one request. -/
inductive Effect where
  /-- A successful object-store put (env.IMAGE_BUCKET.put) at a key with a
  content type. -/
  | bucketPut (key : String) (contentType : String)
  /-- A KV put (env.TASK_INFO_KV.put). -/
  | kvPut (key : String) (record : TaskRecord)
  /-- A KV delete (env.TASK_INFO_KV.delete, run via context.waitUntil). -/
  | kvDelete (key : String)
  /-- A POST to the provider's generation endpoint, carrying the seed. -/
  | genSubmit (seed : Int)
  /-- A POST of an upscale job referencing a task id (triggerUpscale). -/
  | upscaleSubmit (taskId : String)
  deriving DecidableEq, Repr

/-- True exactly on object-store writes. -/
def Effect.isBucketPut : Effect → Bool
  | .bucketPut _ _ => true
  | _ => false

/-- True exactly on KV deletions. -/
def Effect.isKvDelete : Effect → Bool
  | .kvDelete _ => true
  | _ => false

/-- True exactly on upscale-job submissions. -/
def Effect.isUpscaleSubmit : Effect → Bool
  | .upscaleSubmit _ => true
  | _ => false

/-- True exactly on generation-job submissions. -/
def Effect.isGenSubmit : Effect → Bool
  | .genSubmit _ => true
  | _ => false

instance {ε α : Type} [DecidableEq ε] [DecidableEq α] : DecidableEq (Except ε α) :=
  fun x y =>
    match x, y with
    | .error a, .error b => decidable_of_iff (a = b) (by simp)
    | .ok a, .ok b => decidable_of_iff (a = b) (by simp)
    | .error _, .ok _ => isFalse (by simp)
    | .ok _, .error _ => isFalse (by simp)

/-- Result of one handled request: the JSON response (success payload or the
error message of the 500 response), the index afterwards, and the effect
log. -/
structure Outcome (α : Type) where
  response : Except String α
  kv : KV
  effects : List Effect
  deriving DecidableEq, Repr

/-- The success payload of a status poll:
status, progress, videoUrl (null unless finalized). -/
structure PollOk where
  status : String
  progress : Nat
  videoUrl : Option String
  deriving DecidableEq, Repr

/-- What the provider's task-status endpoint reports (mirrored, not owned):
status, progress, the output URL list, and the originating task id of an
upscale task (data.source_task_id). -/
structure ProviderTaskData where
  status : String
  progress : Nat
  output : List String
  sourceTaskId : Option String
  deriving Repr

/-- Oracle for the external interactions of one status poll. -/
structure PollEnv where
  /-- Whether GET /v1/tasks/taskId returned 2xx. -/
  providerOk : Bool
  /-- The provider's error text when the status query failed. -/
  providerError : String
  /-- The task data when the status query succeeded. -/
  provider : ProviderTaskData
  /-- Result of triggerUpscale: the new upscale task's id, or the error. -/
  upscaleResult : Except String String
  /-- Whether the fetch of the output video returned 2xx. -/
  downloadOk : Bool
  /-- Whether the object-store put of the video succeeded. -/
  storePutOk : Bool

/-- The record lookup of the poll branch (ai.js lines 92-95): try the polled
task id first, then the provider's source task id. -/
def lookupRecord (kv : KV) (taskId : String) (src : Option String) :
    Option TaskRecord :=
  match kvGet kv taskId with
  | some r => some r
  | none =>
    match src with
    | some s => kvGet kv s
    | none => none

/-- The status-poll branch of onRequest (ai.js lines 80-125).
Mirrors the source: on a non-2xx provider response, throw; on status
SUCCEEDED, look up the record by the polled id and then by
data.source_task_id, throw when absent; when an upscale is requested and the
polled id is the original id, submit the upscale job and copy the record to
the new task id; otherwise download the output video, write it into the
store at the record's videoKey, delete both KV entries and answer with the
public URL; on any other status, answer status and progress verbatim. -/
def pollStatus (taskId : String) (kv : KV) (e : PollEnv) : Outcome PollOk :=
  if e.providerOk then
    let data := e.provider
    if data.status = "SUCCEEDED" then
      match lookupRecord kv taskId data.sourceTaskId with
      | none =>
        ⟨Except.error ("Could not find task info for task ID: " ++ taskId), kv, []⟩
      | some taskInfo =>
        if taskInfo.upscale && (taskId == taskInfo.originalTaskId) then
          match e.upscaleResult with
          | Except.error msg => ⟨Except.error msg, kv, [Effect.upscaleSubmit taskId]⟩
          | Except.ok newId =>
            ⟨Except.ok ⟨"Upscaling to 4K...", 50, none⟩,
              kvPut kv newId taskInfo,
              [Effect.upscaleSubmit taskId, Effect.kvPut newId taskInfo]⟩
        else
          match data.output.head? with
          | none => ⟨Except.error "Task succeeded but no video URL was found.", kv, []⟩
          | some url =>
            if url = "" then
              ⟨Except.error "Task succeeded but no video URL was found.", kv, []⟩
            else if e.downloadOk then
              if e.storePutOk then
                ⟨Except.ok ⟨data.status, 100,
                    some (taskInfo.r2PublicUrl ++ "/" ++ taskInfo.videoKey)⟩,
                  kvDelete (kvDelete kv taskId) taskInfo.originalTaskId,
                  [Effect.bucketPut taskInfo.videoKey "video/mp4",
                   Effect.kvDelete taskId,
                   Effect.kvDelete taskInfo.originalTaskId]⟩
              else
                ⟨Except.error "Failed to save video to storage.", kv, []⟩
            else
              ⟨Except.error "Failed to download video from Runway.", kv, []⟩
    else
      ⟨Except.ok ⟨data.status, data.progress, none⟩, kv, []⟩
  else
    ⟨Except.error ("Failed to check task status. Reason: " ++ e.providerError), kv, []⟩

/-- The uploaded image file: its filename and MIME type. -/
structure ImageFile where
  name : String
  contentType : String
  deriving Repr

/-- The multipart submission form.  A missing field is none; formData.get
of an absent field is null in the source. -/
structure SubmitForm where
  prompt : Option String
  image : Option ImageFile
  durationField : Option String
  aspectField : Option String
  upscaleField : Option String
  deriving Repr

/-- The success payload of a submission: the provider task id and status. -/
structure SubmitOk where
  taskId : String
  status : String
  deriving DecidableEq, Repr

/-- Oracle for the external interactions of one submission. -/
structure SubmitEnv where
  /-- Date.now() at handling time, in milliseconds. -/
  now : Nat
  /-- env.R2_PUBLIC_URL. -/
  r2PublicUrl : String
  /-- The Math.random() draw, a number in the interval from 0 up to
  (excluding) 1. -/
  rand : ℚ
  /-- Whether the object-store put of the uploaded image succeeded. -/
  imagePutOk : Bool
  /-- Provider answer to POST /v1/image_to_video: the accepted task's id and
  status, or the error. -/
  genResult : Except String (String × String)

/-- The filename with its extension stripped, with the source's fallback:
name.split('.').slice(0, -1).join('.') || name. -/
def stripExt (name : String) : String :=
  let base := String.intercalate "." ((name.splitOn ".").dropLast)
  if base = "" then name else base

/-- The destination key for the eventual video (ai.js line 53):
timestamp, hyphen, extension-stripped filename, a -4k suffix exactly when
upscale was requested, and the .mp4 extension. -/
def videoKeyOf (now : Nat) (name : String) (upscale : Bool) : String :=
  "videos/" ++ toString now ++ "-" ++ stripExt name ++
    (if upscale then "-4k" else "") ++ ".mp4"

/-- The random seed sent to the provider (ai.js line 59):
Math.floor(Math.random() * 4294967295), with the random draw an exact
rational in the interval from 0 up to (excluding) 1. -/
def seedOf (rand : ℚ) : Int :=
  Int.floor (rand * 4294967295)

/-- The whole-Bool reading of the upscale form field (ai.js line 45):
the string comparison formData.get('upscale') === 'true'. -/
def parseUpscale (field : Option String) : Bool :=
  field == some "true"

/-- The submission branch of onRequest (ai.js lines 39-77).
Mirrors the source: validate prompt and image (null or empty prompt and
null image are falsy), store the image, compute the destination video key,
submit the generation job with a random seed, and on acceptance write the
TaskRecord keyed by the returned id with originalTaskId equal to that id. -/
def submit (form : SubmitForm) (kv : KV) (e : SubmitEnv) : Outcome SubmitOk :=
  let promptOk := match form.prompt with
    | none => false
    | some p => p ≠ ""
  match form.image, promptOk with
  | some image, true =>
    let imageKey := "uploads/" ++ toString e.now ++ "-" ++ image.name
    if e.imagePutOk then
      let upscale := parseUpscale form.upscaleField
      let videoKey := videoKeyOf e.now image.name upscale
      let seed := seedOf e.rand
      match e.genResult with
      | Except.error msg =>
        ⟨Except.error msg, kv,
          [Effect.bucketPut imageKey image.contentType, Effect.genSubmit seed]⟩
      | Except.ok (id, status) =>
        ⟨Except.ok ⟨id, status⟩,
          kvPut kv id ⟨videoKey, e.r2PublicUrl, upscale, id⟩,
          [Effect.bucketPut imageKey image.contentType, Effect.genSubmit seed,
           Effect.kvPut id ⟨videoKey, e.r2PublicUrl, upscale, id⟩]⟩
    else
      ⟨Except.error "Failed to store the uploaded image.", kv,
        []⟩
  | _, _ => ⟨Except.error "Request is missing prompt or image file.", kv, []⟩

/-! ### Laws of the key-value index -/

theorem kvGet_kvDelete (kv : KV) (k x : String) :
    kvGet (kvDelete kv k) x = if x = k then none else kvGet kv x := by
  induction kv with
  | nil => simp [kvDelete, kvGet]
  | cons hd tl ih =>
    obtain ⟨a, r⟩ := hd
    simp only [kvDelete, kvGet]
    by_cases hak : a = k <;> by_cases hxa : x = a <;> by_cases hxk : x = k <;>
      simp_all [kvGet]

theorem kvGet_kvPut (kv : KV) (k : String) (r : TaskRecord) (x : String) :
    kvGet (kvPut kv k r) x = if x = k then some r else kvGet kv x := by
  simp only [kvPut, kvGet, kvGet_kvDelete]
  by_cases hxk : x = k <;> simp [hxk]

theorem countKey_kvDelete_self (kv : KV) (k : String) :
    countKey (kvDelete kv k) k = 0 := by
  induction kv with
  | nil => simp [kvDelete, countKey]
  | cons hd tl ih =>
    obtain ⟨a, r⟩ := hd
    simp only [kvDelete, countKey]
    by_cases hak : a = k <;> simp_all [countKey]

theorem countKey_kvPut_self (kv : KV) (k : String) (r : TaskRecord) :
    countKey (kvPut kv k r) k = 1 := by
  simp [kvPut, countKey, countKey_kvDelete_self]

/-- After deleting both keys of a task chain, any lookup at either key
misses. -/
theorem kvGet_kvDelete_pair (kv : KV) (a b x : String) (hx : x = a ∨ x = b) :
    kvGet (kvDelete (kvDelete kv a) b) x = none := by
  rw [kvGet_kvDelete, kvGet_kvDelete]
  rcases hx with rfl | rfl
  · split <;> simp
  · simp

/-- A record found directly under the polled id is the lookup result. -/
theorem lookupRecord_of_direct (kv : KV) (taskId : String) (src : Option String)
    (r : TaskRecord) (h : kvGet kv taskId = some r) :
    lookupRecord kv taskId src = some r := by
  simp [lookupRecord, h]

/-- When the polled id misses, the lookup falls back to the source id. -/
theorem lookupRecord_of_source (kv : KV) (taskId s : String) (src : Option String)
    (r : TaskRecord) (h : kvGet kv taskId = none) (hs : src = some s)
    (hr : kvGet kv s = some r) :
    lookupRecord kv taskId src = some r := by
  simp [lookupRecord, h, hs, hr]

/-- The lookup misses when both ids miss. -/
theorem lookupRecord_none (kv : KV) (taskId : String) (src : Option String)
    (h : kvGet kv taskId = none)
    (hsrc : ∀ s, src = some s → kvGet kv s = none) :
    lookupRecord kv taskId src = none := by
  cases hs : src with
  | none => simp [lookupRecord, h]
  | some s => simp [lookupRecord, h, hsrc s hs]

/-! ### Branch computations of the two operations -/

/-- The finalize branch: status SUCCEEDED, record found at the polled id, no
upscale pending, output URL present, download and store write succeed. -/
theorem pollStatus_finalize (taskId : String) (kv : KV) (e : PollEnv)
    (r : TaskRecord) (u : String)
    (h1 : e.providerOk = true) (h2 : e.provider.status = "SUCCEEDED")
    (h3 : lookupRecord kv taskId e.provider.sourceTaskId = some r)
    (h4 : (r.upscale && (taskId == r.originalTaskId)) = false)
    (h5 : e.provider.output.head? = some u) (h6 : u ≠ "")
    (h7 : e.downloadOk = true) (h8 : e.storePutOk = true) :
    pollStatus taskId kv e =
      ⟨Except.ok ⟨"SUCCEEDED", 100, some (r.r2PublicUrl ++ "/" ++ r.videoKey)⟩,
       kvDelete (kvDelete kv taskId) r.originalTaskId,
       [Effect.bucketPut r.videoKey "video/mp4", Effect.kvDelete taskId,
        Effect.kvDelete r.originalTaskId]⟩ := by
  simp [pollStatus, h1, h2, h3, h4, h5, h6, h7, h8]

/-- The upscale branch: status SUCCEEDED, record found, upscale requested and
the polled id is the original id, upscale submission accepted. -/
theorem pollStatus_upscale (taskId : String) (kv : KV) (e : PollEnv)
    (r : TaskRecord) (newId : String)
    (h1 : e.providerOk = true) (h2 : e.provider.status = "SUCCEEDED")
    (h3 : lookupRecord kv taskId e.provider.sourceTaskId = some r)
    (h4 : (r.upscale && (taskId == r.originalTaskId)) = true)
    (h5 : e.upscaleResult = Except.ok newId) :
    pollStatus taskId kv e =
      ⟨Except.ok ⟨"Upscaling to 4K...", 50, none⟩,
       kvPut kv newId r,
       [Effect.upscaleSubmit taskId, Effect.kvPut newId r]⟩ := by
  simp [pollStatus, h1, h2, h3, h4, h5]

/-- The pass-through branch: any provider status other than SUCCEEDED. -/
theorem pollStatus_notSucceeded (taskId : String) (kv : KV) (e : PollEnv)
    (h1 : e.providerOk = true) (h2 : e.provider.status ≠ "SUCCEEDED") :
    pollStatus taskId kv e =
      ⟨Except.ok ⟨e.provider.status, e.provider.progress, none⟩, kv, []⟩ := by
  simp [pollStatus, h1, h2]

/-- The missing-record branch: status SUCCEEDED but neither the polled id nor
the provider's source task id has a record. -/
theorem pollStatus_noRecord (taskId : String) (kv : KV) (e : PollEnv)
    (h1 : e.providerOk = true) (h2 : e.provider.status = "SUCCEEDED")
    (h3 : lookupRecord kv taskId e.provider.sourceTaskId = none) :
    pollStatus taskId kv e =
      ⟨Except.error ("Could not find task info for task ID: " ++ taskId), kv, []⟩ := by
  simp [pollStatus, h1, h2, h3]

/-- The failed-store-write branch: everything as in finalize but the object
store put fails. -/
theorem pollStatus_putFail (taskId : String) (kv : KV) (e : PollEnv)
    (r : TaskRecord) (u : String)
    (h1 : e.providerOk = true) (h2 : e.provider.status = "SUCCEEDED")
    (h3 : lookupRecord kv taskId e.provider.sourceTaskId = some r)
    (h4 : (r.upscale && (taskId == r.originalTaskId)) = false)
    (h5 : e.provider.output.head? = some u) (h6 : u ≠ "")
    (h7 : e.downloadOk = true) (h8 : e.storePutOk = false) :
    pollStatus taskId kv e =
      ⟨Except.error "Failed to save video to storage.", kv, []⟩ := by
  simp [pollStatus, h1, h2, h3, h4, h5, h6, h7, h8]

/-- The accepted-submission branch: prompt and image present, image stored,
generation job accepted by the provider. -/
theorem submit_accepted (form : SubmitForm) (kv : KV) (e : SubmitEnv)
    (img : ImageFile) (p id st : String)
    (h1 : form.prompt = some p) (h2 : p ≠ "") (h3 : form.image = some img)
    (h4 : e.imagePutOk = true) (h5 : e.genResult = Except.ok (id, st)) :
    submit form kv e =
      ⟨Except.ok ⟨id, st⟩,
       kvPut kv id ⟨videoKeyOf e.now img.name (parseUpscale form.upscaleField),
         e.r2PublicUrl, parseUpscale form.upscaleField, id⟩,
       [Effect.bucketPut ("uploads/" ++ toString e.now ++ "-" ++ img.name)
          img.contentType,
        Effect.genSubmit (seedOf e.rand),
        Effect.kvPut id ⟨videoKeyOf e.now img.name (parseUpscale form.upscaleField),
          e.r2PublicUrl, parseUpscale form.upscaleField, id⟩]⟩ := by
  simp [submit, h1, h2, h3, h4, h5]

/-- The rejected-submission branch: a missing prompt or image short-circuits
before any effect. -/
theorem submit_invalid (form : SubmitForm) (kv : KV) (e : SubmitEnv)
    (h : form.prompt = none ∨ form.image = none) :
    submit form kv e =
      ⟨Except.error "Request is missing prompt or image file.", kv, []⟩ := by
  rcases h with h | h <;> cases hi : form.image <;> cases hp : form.prompt <;>
    simp_all [submit]

/-! ### Concrete fixtures used by the witnesses -/

/-- A record of a plain (no-upscale) generation task. -/
def catRecord : TaskRecord := ⟨"videos/171-cat.mp4", "https://cdn", false, "t1"⟩

/-- An index holding the plain record under its task id. -/
def catKV : KV := [("t1", catRecord)]

/-- A record of a generation task with upscale requested. -/
def upRecord : TaskRecord := ⟨"videos/171-cat-4k.mp4", "https://cdn", true, "t1"⟩

/-- An index holding the upscale-requesting record under its task id. -/
def upKV : KV := [("t1", upRecord)]

/-- A poll oracle: provider reports SUCCEEDED with an output URL. -/
def succEnv : PollEnv :=
  ⟨true, "", ⟨"SUCCEEDED", 95, ["https://rw/out.mp4"], none⟩,
    Except.error "na", true, true⟩

/-- A poll oracle: provider reports SUCCEEDED and accepts an upscale job as
task t2. -/
def upSuccEnv : PollEnv :=
  ⟨true, "", ⟨"SUCCEEDED", 95, ["https://rw/out.mp4"], none⟩,
    Except.ok "t2", true, true⟩

/-- A poll oracle: provider reports RUNNING at 40 percent. -/
def runEnv : PollEnv :=
  ⟨true, "", ⟨"RUNNING", 40, [], none⟩, Except.error "na", true, true⟩

/-- A poll oracle: provider reports FAILED at 30 percent. -/
def failEnv : PollEnv :=
  ⟨true, "", ⟨"FAILED", 30, [], none⟩, Except.error "na", true, true⟩

/-- A poll oracle: provider reports SUCCEEDED but the object-store write of
the video fails. -/
def putFailEnv : PollEnv :=
  ⟨true, "", ⟨"SUCCEEDED", 95, ["https://rw/out.mp4"], none⟩,
    Except.error "na", true, false⟩

/-- A submission form with all fields present and no upscale. -/
def okForm : SubmitForm :=
  ⟨some "zoom in", some ⟨"cat.jpg", "image/jpeg"⟩, none, none, none⟩

/-- A submission form with all fields present and upscale requested. -/
def upForm : SubmitForm :=
  ⟨some "zoom in", some ⟨"cat.jpg", "image/jpeg"⟩, none, none, some "true"⟩

/-- A submission form whose prompt is missing. -/
def noPromptForm : SubmitForm :=
  ⟨none, some ⟨"cat.jpg", "image/jpeg"⟩, none, none, none⟩

/-- A submission oracle: image stored, generation accepted as task t1. -/
def okSubmitEnv : SubmitEnv :=
  ⟨171, "https://cdn", 0, true, Except.ok ("t1", "PENDING")⟩

/-! ### The claims -/

/-- C5: For every submission request with a missing prompt or a missing
image, the handler yields a ValidationError response and never calls the
generation provider (the effect log is empty, so in particular no
generation-job submission happens, and the index is untouched). -/
theorem missing_input_rejected_without_provider_call
    (form : SubmitForm) (kv : KV) (e : SubmitEnv)
    (h : form.prompt = none ∨ form.image = none) :
    (submit form kv e).response
        = Except.error "Request is missing prompt or image file."
    ∧ (submit form kv e).effects = []
    ∧ (submit form kv e).kv = kv := by
  rw [submit_invalid form kv e h]
  exact ⟨rfl, rfl, rfl⟩

/-- Witness for C5 at a concrete prompt-less form. -/
theorem missing_input_rejected_without_provider_call_witness :
    (submit noPromptForm [] okSubmitEnv).response
        = Except.error "Request is missing prompt or image file."
    ∧ (submit noPromptForm [] okSubmitEnv).effects = []
    ∧ (submit noPromptForm [] okSubmitEnv).kv = [] :=
  missing_input_rejected_without_provider_call noPromptForm [] okSubmitEnv
    (Or.inl rfl)

/-- The proposition claim C6 asserts of the code: every poll of a task whose
provider status is FAILED is answered with an error ({success:false})
response. -/
def failedYieldsError : Prop :=
  ∀ (taskId : String) (kv : KV) (e : PollEnv),
    e.providerOk = true → e.provider.status = "FAILED" →
    ∃ msg, (pollStatus taskId kv e).response = Except.error msg

/-- C6 (counterexample): polling task t1 with the provider reporting FAILED
at progress 30 returns a success response carrying the FAILED status, not an
UpstreamError, so the claimed proposition is false. -/
theorem failed_poll_not_an_error : ¬ failedYieldsError := by
  intro h
  obtain ⟨msg, hmsg⟩ := h "t1" catKV failEnv (by decide) (by decide)
  rw [show (pollStatus "t1" catKV failEnv).response
      = Except.ok ⟨"FAILED", 30, none⟩ from by decide] at hmsg
  exact Except.noConfusion hmsg

/-- C6 (amended): for every poll of a task whose provider status is FAILED,
the handler returns a success response with the FAILED status and the
provider's progress verbatim and videoUrl null, performing no writes; the
failure is surfaced as an error by the polling client, not by the handler. -/
theorem failed_poll_passes_status_through (taskId : String) (kv : KV)
    (e : PollEnv) (h1 : e.providerOk = true)
    (h2 : e.provider.status = "FAILED") :
    (pollStatus taskId kv e).response
        = Except.ok ⟨"FAILED", e.provider.progress, none⟩
    ∧ (pollStatus taskId kv e).kv = kv
    ∧ (pollStatus taskId kv e).effects = [] := by
  have hne : e.provider.status ≠ "SUCCEEDED" := by rw [h2]; decide
  rw [pollStatus_notSucceeded taskId kv e h1 hne, h2]
  exact ⟨rfl, rfl, rfl⟩

/-- Witness for the amended C6 at a concrete FAILED poll. -/
theorem failed_poll_passes_status_through_witness :
    (pollStatus "t1" catKV failEnv).response
        = Except.ok ⟨"FAILED", failEnv.provider.progress, none⟩
    ∧ (pollStatus "t1" catKV failEnv).kv = catKV
    ∧ (pollStatus "t1" catKV failEnv).effects = [] :=
  failed_poll_passes_status_through "t1" catKV failEnv (by decide) (by decide)

/-- C7: for every poll of a task whose provider status is neither SUCCEEDED
nor FAILED, the response returns that status and the provider's progress
verbatim with videoUrl null, and no write to the object store or the
key-value index is performed. -/
theorem non_terminal_poll_passes_through (taskId : String) (kv : KV)
    (e : PollEnv) (h1 : e.providerOk = true)
    (h2 : e.provider.status ≠ "SUCCEEDED")
    (h3 : e.provider.status ≠ "FAILED") :
    (pollStatus taskId kv e).response
        = Except.ok ⟨e.provider.status, e.provider.progress, none⟩
    ∧ (pollStatus taskId kv e).kv = kv
    ∧ (pollStatus taskId kv e).effects = [] := by
  rw [pollStatus_notSucceeded taskId kv e h1 h2]
  exact ⟨rfl, rfl, rfl⟩

/-- Witness for C7 at a concrete RUNNING poll. -/
theorem non_terminal_poll_passes_through_witness :
    (pollStatus "t1" catKV runEnv).response
        = Except.ok ⟨runEnv.provider.status, runEnv.provider.progress, none⟩
    ∧ (pollStatus "t1" catKV runEnv).kv = catKV
    ∧ (pollStatus "t1" catKV runEnv).effects = [] :=
  non_terminal_poll_passes_through "t1" catKV runEnv (by decide) (by decide)
    (by decide)

/-- C1: for every poll of a task whose provider status is SUCCEEDED, whose
TaskRecord (found by the polled id, or by the provider's source task id when
the polled id misses) does not request a still-pending upscale (no upscale
requested, or the polled id differs from the record's originalTaskId), and
whose payload carries a nonempty output URL, with the download and store
write succeeding: exactly one object-store write of the video is performed,
at the record's destination key; the records keyed by the polled id and by
the record's originalTaskId are both gone afterwards; the response is
success with status SUCCEEDED, progress 100 and videoUrl equal to the
record's public base URL joined with '/' and the destination key; and any
later SUCCEEDED poll of the same task id (whose source task id, if any,
stays within the chain) yields the StateError. -/
theorem finalize_poll_writes_once_and_clears_index
    (taskId : String) (kv : KV) (e : PollEnv) (r : TaskRecord) (u : String)
    (h1 : e.providerOk = true) (h2 : e.provider.status = "SUCCEEDED")
    (h3 : kvGet kv taskId = some r ∨
      (kvGet kv taskId = none ∧ ∃ s, e.provider.sourceTaskId = some s ∧
        kvGet kv s = some r))
    (h4 : r.upscale = false ∨ taskId ≠ r.originalTaskId)
    (h5 : e.provider.output.head? = some u) (h6 : u ≠ "")
    (h7 : e.downloadOk = true) (h8 : e.storePutOk = true) :
    (pollStatus taskId kv e).response
        = Except.ok ⟨"SUCCEEDED", 100, some (r.r2PublicUrl ++ "/" ++ r.videoKey)⟩
    ∧ (pollStatus taskId kv e).effects.filter Effect.isBucketPut
        = [Effect.bucketPut r.videoKey "video/mp4"]
    ∧ kvGet (pollStatus taskId kv e).kv taskId = none
    ∧ kvGet (pollStatus taskId kv e).kv r.originalTaskId = none
    ∧ ∀ e2 : PollEnv, e2.providerOk = true →
        e2.provider.status = "SUCCEEDED" →
        (e2.provider.sourceTaskId = none ∨
          e2.provider.sourceTaskId = some taskId ∨
          e2.provider.sourceTaskId = some r.originalTaskId) →
        (pollStatus taskId (pollStatus taskId kv e).kv e2).response
          = Except.error ("Could not find task info for task ID: " ++ taskId) := by
  have h4' : (r.upscale && (taskId == r.originalTaskId)) = false := by
    rcases h4 with h | h <;> simp [h]
  have h3' : lookupRecord kv taskId e.provider.sourceTaskId = some r := by
    rcases h3 with h | ⟨hn, s, hs, hr⟩
    · exact lookupRecord_of_direct kv taskId _ r h
    · exact lookupRecord_of_source kv taskId s _ r hn hs hr
  rw [pollStatus_finalize taskId kv e r u h1 h2 h3' h4' h5 h6 h7 h8]
  dsimp only
  have hnone : ∀ x, x = taskId ∨ x = r.originalTaskId →
      kvGet (kvDelete (kvDelete kv taskId) r.originalTaskId) x = none :=
    fun x hx => kvGet_kvDelete_pair kv taskId r.originalTaskId x hx
  refine ⟨rfl, by simp [List.filter, Effect.isBucketPut],
    hnone taskId (Or.inl rfl), hnone r.originalTaskId (Or.inr rfl), ?_⟩
  intro e2 p1 p2 p3
  have hlook : lookupRecord (kvDelete (kvDelete kv taskId) r.originalTaskId)
      taskId e2.provider.sourceTaskId = none := by
    apply lookupRecord_none _ _ _ (hnone taskId (Or.inl rfl))
    intro s hs
    rcases p3 with hh | hh | hh
    · rw [hh] at hs
      exact Option.noConfusion hs
    · rw [hh] at hs
      injection hs with h
      subst h
      exact hnone taskId (Or.inl rfl)
    · rw [hh] at hs
      injection hs with h
      subst h
      exact hnone r.originalTaskId (Or.inr rfl)
  exact congrArg Outcome.response
    (pollStatus_noRecord taskId _ e2 p1 p2 hlook)

/-- Witness for C1: a concrete finalize poll of the no-upscale task t1. -/
theorem finalize_poll_writes_once_and_clears_index_witness :
    (pollStatus "t1" catKV succEnv).response
        = Except.ok ⟨"SUCCEEDED", 100,
            some (catRecord.r2PublicUrl ++ "/" ++ catRecord.videoKey)⟩
    ∧ (pollStatus "t1" catKV succEnv).effects.filter Effect.isBucketPut
        = [Effect.bucketPut catRecord.videoKey "video/mp4"]
    ∧ kvGet (pollStatus "t1" catKV succEnv).kv "t1" = none
    ∧ kvGet (pollStatus "t1" catKV succEnv).kv catRecord.originalTaskId = none
    ∧ ∀ e2 : PollEnv, e2.providerOk = true →
        e2.provider.status = "SUCCEEDED" →
        (e2.provider.sourceTaskId = none ∨
          e2.provider.sourceTaskId = some "t1" ∨
          e2.provider.sourceTaskId = some catRecord.originalTaskId) →
        (pollStatus "t1" (pollStatus "t1" catKV succEnv).kv e2).response
          = Except.error ("Could not find task info for task ID: " ++ "t1") :=
  finalize_poll_writes_once_and_clears_index "t1" catKV succEnv catRecord
    "https://rw/out.mp4" (by decide) (by decide) (Or.inl (by decide))
    (Or.inl (by decide)) (by decide) (by decide) (by decide) (by decide)

/-- C2: for every poll of a task whose provider status is SUCCEEDED, whose
TaskRecord has upscaleRequested true and whose polled id equals the record's
originalTaskId, with the provider accepting the upscale job: no object-store
write is performed; exactly one upscale job is submitted, referencing the
polled id; exactly one new TaskRecord is written, under the upscale task's
id and equal to the existing record (same destinationKey, publicBaseUrl,
upscaleRequested and originalTaskId); and the response is success with the
synthetic in-progress status and progress 50. -/
theorem upscale_poll_chains_without_store_write
    (taskId newId : String) (kv : KV) (e : PollEnv) (r : TaskRecord)
    (h1 : e.providerOk = true) (h2 : e.provider.status = "SUCCEEDED")
    (h3 : kvGet kv taskId = some r)
    (h4 : r.upscale = true) (h5 : taskId = r.originalTaskId)
    (h6 : e.upscaleResult = Except.ok newId) :
    (pollStatus taskId kv e).response
        = Except.ok ⟨"Upscaling to 4K...", 50, none⟩
    ∧ (pollStatus taskId kv e).effects
        = [Effect.upscaleSubmit taskId, Effect.kvPut newId r]
    ∧ (pollStatus taskId kv e).effects.filter Effect.isBucketPut = []
    ∧ (pollStatus taskId kv e).effects.filter Effect.isUpscaleSubmit
        = [Effect.upscaleSubmit taskId]
    ∧ kvGet (pollStatus taskId kv e).kv newId = some r
    ∧ countKey (pollStatus taskId kv e).kv newId = 1 := by
  have h4' : (r.upscale && (taskId == r.originalTaskId)) = true := by
    simp [h4, h5]
  rw [pollStatus_upscale taskId kv e r newId h1 h2
    (lookupRecord_of_direct kv taskId _ r h3) h4' h6]
  dsimp only
  refine ⟨rfl, rfl, by simp [List.filter, Effect.isBucketPut],
    by simp [List.filter, Effect.isUpscaleSubmit], ?_,
    countKey_kvPut_self kv newId r⟩
  rw [kvGet_kvPut]
  simp

/-- Witness for C2: a concrete upscale-chaining poll of task t1. -/
theorem upscale_poll_chains_without_store_write_witness :
    (pollStatus "t1" upKV upSuccEnv).response
        = Except.ok ⟨"Upscaling to 4K...", 50, none⟩
    ∧ (pollStatus "t1" upKV upSuccEnv).effects
        = [Effect.upscaleSubmit "t1", Effect.kvPut "t2" upRecord]
    ∧ (pollStatus "t1" upKV upSuccEnv).effects.filter Effect.isBucketPut = []
    ∧ (pollStatus "t1" upKV upSuccEnv).effects.filter Effect.isUpscaleSubmit
        = [Effect.upscaleSubmit "t1"]
    ∧ kvGet (pollStatus "t1" upKV upSuccEnv).kv "t2" = some upRecord
    ∧ countKey (pollStatus "t1" upKV upSuccEnv).kv "t2" = 1 :=
  upscale_poll_chains_without_store_write "t1" "t2" upKV upSuccEnv upRecord
    (by decide) (by decide) (by decide) (by decide) (by decide) (by decide)

/-- C3: for every submission accepted by the provider, exactly one
TaskRecord exists in the index immediately after submission, keyed by the
task id returned to the client, and its originalTaskId equals that id. -/
theorem submission_writes_unique_record
    (form : SubmitForm) (kv : KV) (e : SubmitEnv) (img : ImageFile)
    (p id st : String)
    (h1 : form.prompt = some p) (h2 : p ≠ "") (h3 : form.image = some img)
    (h4 : e.imagePutOk = true) (h5 : e.genResult = Except.ok (id, st)) :
    (submit form kv e).response = Except.ok ⟨id, st⟩
    ∧ kvGet (submit form kv e).kv id
        = some ⟨videoKeyOf e.now img.name (parseUpscale form.upscaleField),
            e.r2PublicUrl, parseUpscale form.upscaleField, id⟩
    ∧ countKey (submit form kv e).kv id = 1
    ∧ (kvGet (submit form kv e).kv id).map TaskRecord.originalTaskId
        = some id := by
  rw [submit_accepted form kv e img p id st h1 h2 h3 h4 h5]
  dsimp only
  have hg : kvGet (kvPut kv id
      ⟨videoKeyOf e.now img.name (parseUpscale form.upscaleField),
        e.r2PublicUrl, parseUpscale form.upscaleField, id⟩) id
      = some ⟨videoKeyOf e.now img.name (parseUpscale form.upscaleField),
          e.r2PublicUrl, parseUpscale form.upscaleField, id⟩ := by
    rw [kvGet_kvPut]
    simp
  refine ⟨rfl, hg, countKey_kvPut_self _ _ _, ?_⟩
  rw [hg]
  rfl

/-- Witness for C3: a concrete accepted submission of cat.jpg. -/
theorem submission_writes_unique_record_witness :
    (submit okForm [] okSubmitEnv).response = Except.ok ⟨"t1", "PENDING"⟩
    ∧ kvGet (submit okForm [] okSubmitEnv).kv "t1"
        = some ⟨videoKeyOf okSubmitEnv.now "cat.jpg"
              (parseUpscale okForm.upscaleField),
            okSubmitEnv.r2PublicUrl, parseUpscale okForm.upscaleField, "t1"⟩
    ∧ countKey (submit okForm [] okSubmitEnv).kv "t1" = 1
    ∧ (kvGet (submit okForm [] okSubmitEnv).kv "t1").map
        TaskRecord.originalTaskId = some "t1" :=
  submission_writes_unique_record okForm [] okSubmitEnv ⟨"cat.jpg", "image/jpeg"⟩
    "zoom in" "t1" "PENDING" rfl (by decide) rfl rfl rfl

/-- C8: atomicity of finalize with respect to the index: when the video has
been downloaded but the object-store write fails, the response is the
storage error, the index is left unchanged (the record is still there, no
deletion happened, no effect at all was performed), and a subsequent
SUCCEEDED poll of the same task re-runs the finalize step from scratch,
writing the video at the record's destination key. -/
theorem finalize_store_failure_preserves_records
    (taskId : String) (kv : KV) (e : PollEnv) (r : TaskRecord) (u : String)
    (h1 : e.providerOk = true) (h2 : e.provider.status = "SUCCEEDED")
    (h3 : kvGet kv taskId = some r)
    (h4 : r.upscale = false ∨ taskId ≠ r.originalTaskId)
    (h5 : e.provider.output.head? = some u) (h6 : u ≠ "")
    (h7 : e.downloadOk = true) (h8 : e.storePutOk = false) :
    (pollStatus taskId kv e).response
        = Except.error "Failed to save video to storage."
    ∧ (pollStatus taskId kv e).kv = kv
    ∧ (pollStatus taskId kv e).effects = []
    ∧ kvGet (pollStatus taskId kv e).kv taskId = some r
    ∧ ∀ (e2 : PollEnv) (u2 : String), e2.providerOk = true →
        e2.provider.status = "SUCCEEDED" →
        e2.provider.output.head? = some u2 → u2 ≠ "" →
        e2.downloadOk = true → e2.storePutOk = true →
        (pollStatus taskId (pollStatus taskId kv e).kv e2).response
            = Except.ok ⟨"SUCCEEDED", 100,
                some (r.r2PublicUrl ++ "/" ++ r.videoKey)⟩
        ∧ (pollStatus taskId (pollStatus taskId kv e).kv e2).effects.filter
            Effect.isBucketPut
          = [Effect.bucketPut r.videoKey "video/mp4"] := by
  have h4' : (r.upscale && (taskId == r.originalTaskId)) = false := by
    rcases h4 with h | h <;> simp [h]
  rw [pollStatus_putFail taskId kv e r u h1 h2
    (lookupRecord_of_direct kv taskId _ r h3) h4' h5 h6 h7 h8]
  dsimp only
  refine ⟨rfl, rfl, rfl, h3, ?_⟩
  intro e2 u2 p1 p2 p5 p6 p7 p8
  rw [pollStatus_finalize taskId kv e2 r u2 p1 p2
    (lookupRecord_of_direct kv taskId _ r h3) h4' p5 p6 p7 p8]
  exact ⟨rfl, by simp [List.filter, Effect.isBucketPut]⟩

/-- Witness for C8: a concrete failed store write for task t1, retried. -/
theorem finalize_store_failure_preserves_records_witness :
    (pollStatus "t1" catKV putFailEnv).response
        = Except.error "Failed to save video to storage."
    ∧ (pollStatus "t1" catKV putFailEnv).kv = catKV
    ∧ (pollStatus "t1" catKV putFailEnv).effects = []
    ∧ kvGet (pollStatus "t1" catKV putFailEnv).kv "t1" = some catRecord
    ∧ ∀ (e2 : PollEnv) (u2 : String), e2.providerOk = true →
        e2.provider.status = "SUCCEEDED" →
        e2.provider.output.head? = some u2 → u2 ≠ "" →
        e2.downloadOk = true → e2.storePutOk = true →
        (pollStatus "t1" (pollStatus "t1" catKV putFailEnv).kv e2).response
            = Except.ok ⟨"SUCCEEDED", 100,
                some (catRecord.r2PublicUrl ++ "/" ++ catRecord.videoKey)⟩
        ∧ (pollStatus "t1" (pollStatus "t1" catKV putFailEnv).kv e2).effects.filter
            Effect.isBucketPut
          = [Effect.bucketPut catRecord.videoKey "video/mp4"] :=
  finalize_store_failure_preserves_records "t1" catKV putFailEnv catRecord
    "https://rw/out.mp4" (by decide) (by decide) (by decide)
    (Or.inl (by decide)) (by decide) (by decide) (by decide) (by decide)

/-- C10: the upscale chain terminates after at most one upscale job: the
record written for the chained upscale task keeps the original generation
task's id as originalTaskId, which differs from the upscale task's own id,
so when the upscale task is polled as SUCCEEDED the upscale guard is false:
no second upscale job is submitted and the finalize branch runs. -/
theorem upscale_chain_terminates (taskId newId : String) (kv : KV)
    (r : TaskRecord) (e1 e2 : PollEnv) (u : String)
    (horig : r.originalTaskId = taskId) (hnew : newId ≠ taskId)
    (h3 : kvGet kv taskId = some r) (h4 : r.upscale = true)
    (h1 : e1.providerOk = true) (h2 : e1.provider.status = "SUCCEEDED")
    (h6 : e1.upscaleResult = Except.ok newId)
    (g1 : e2.providerOk = true) (g2 : e2.provider.status = "SUCCEEDED")
    (g5 : e2.provider.output.head? = some u) (g6 : u ≠ "")
    (g7 : e2.downloadOk = true) (g8 : e2.storePutOk = true) :
    kvGet (pollStatus taskId kv e1).kv newId = some r
    ∧ r.originalTaskId ≠ newId
    ∧ (pollStatus newId (pollStatus taskId kv e1).kv e2).effects.filter
        Effect.isUpscaleSubmit = []
    ∧ (pollStatus newId (pollStatus taskId kv e1).kv e2).response
        = Except.ok ⟨"SUCCEEDED", 100,
            some (r.r2PublicUrl ++ "/" ++ r.videoKey)⟩ := by
  have h4' : (r.upscale && (taskId == r.originalTaskId)) = true := by
    simp [h4, horig]
  rw [pollStatus_upscale taskId kv e1 r newId h1 h2
    (lookupRecord_of_direct kv taskId _ r h3) h4' h6]
  dsimp only
  have hget : kvGet (kvPut kv newId r) newId = some r := by
    rw [kvGet_kvPut]
    simp
  have hne : r.originalTaskId ≠ newId := by
    rw [horig]
    exact fun hh => hnew hh.symm
  have hguard : (r.upscale && (newId == r.originalTaskId)) = false := by
    simp [horig, hnew]
  rw [pollStatus_finalize newId (kvPut kv newId r) e2 r u g1 g2
    (lookupRecord_of_direct _ newId _ r hget) hguard g5 g6 g7 g8]
  dsimp only
  exact ⟨hget, hne, by simp [List.filter, Effect.isUpscaleSubmit], rfl⟩

/-- Witness for C10: the concrete t1-to-t2 upscale chain, polled to the
end. -/
theorem upscale_chain_terminates_witness :
    kvGet (pollStatus "t1" upKV upSuccEnv).kv "t2" = some upRecord
    ∧ upRecord.originalTaskId ≠ "t2"
    ∧ (pollStatus "t2" (pollStatus "t1" upKV upSuccEnv).kv succEnv).effects.filter
        Effect.isUpscaleSubmit = []
    ∧ (pollStatus "t2" (pollStatus "t1" upKV upSuccEnv).kv succEnv).response
        = Except.ok ⟨"SUCCEEDED", 100,
            some (upRecord.r2PublicUrl ++ "/" ++ upRecord.videoKey)⟩ :=
  upscale_chain_terminates "t1" "t2" upKV upRecord upSuccEnv succEnv
    "https://rw/out.mp4" (by decide) (by decide) (by decide) (by decide)
    (by decide) (by decide) (by decide) (by decide) (by decide)
    (by decide) (by decide) (by decide) (by decide)

/-- C4: round-trip of the destination key: the key computed at submission
time (timestamp, extension-stripped filename, a -4k suffix exactly when
upscale was requested, and .mp4) is the key stored in the TaskRecord, the
key at which a succeeded non-upscale poll writes the video, and — when an
upscale job is chained in between — the key carried forward by the upscale
TaskRecord and used by the final write. -/
theorem destination_key_round_trip
    (form : SubmitForm) (kv : KV) (es : SubmitEnv) (img : ImageFile)
    (p id st : String)
    (h1 : form.prompt = some p) (h2 : p ≠ "") (h3 : form.image = some img)
    (h4 : es.imagePutOk = true) (h5 : es.genResult = Except.ok (id, st)) :
    (kvGet (submit form kv es).kv id).map TaskRecord.videoKey
        = some (videoKeyOf es.now img.name (parseUpscale form.upscaleField))
    ∧ (∀ (e1 : PollEnv) (u : String),
        parseUpscale form.upscaleField = false →
        e1.providerOk = true → e1.provider.status = "SUCCEEDED" →
        e1.provider.output.head? = some u → u ≠ "" →
        e1.downloadOk = true → e1.storePutOk = true →
        (pollStatus id (submit form kv es).kv e1).effects.filter
            Effect.isBucketPut
          = [Effect.bucketPut (videoKeyOf es.now img.name false) "video/mp4"])
    ∧ (∀ (e1 e2 : PollEnv) (newId u : String),
        parseUpscale form.upscaleField = true → newId ≠ id →
        e1.providerOk = true → e1.provider.status = "SUCCEEDED" →
        e1.upscaleResult = Except.ok newId →
        e2.providerOk = true → e2.provider.status = "SUCCEEDED" →
        e2.provider.output.head? = some u → u ≠ "" →
        e2.downloadOk = true → e2.storePutOk = true →
        (kvGet (pollStatus id (submit form kv es).kv e1).kv newId).map
            TaskRecord.videoKey
          = some (videoKeyOf es.now img.name true)
        ∧ (pollStatus newId
              (pollStatus id (submit form kv es).kv e1).kv e2).effects.filter
            Effect.isBucketPut
          = [Effect.bucketPut (videoKeyOf es.now img.name true)
              "video/mp4"]) := by
  rw [submit_accepted form kv es img p id st h1 h2 h3 h4 h5]
  dsimp only
  have hg : kvGet (kvPut kv id
      ⟨videoKeyOf es.now img.name (parseUpscale form.upscaleField),
        es.r2PublicUrl, parseUpscale form.upscaleField, id⟩) id
      = some ⟨videoKeyOf es.now img.name (parseUpscale form.upscaleField),
          es.r2PublicUrl, parseUpscale form.upscaleField, id⟩ := by
    rw [kvGet_kvPut]
    simp
  refine ⟨by rw [hg]; rfl, ?_, ?_⟩
  · intro e1 u hfalse p1 p2 p5 p6 p7 p8
    have hguard : ((⟨videoKeyOf es.now img.name (parseUpscale form.upscaleField),
        es.r2PublicUrl, parseUpscale form.upscaleField, id⟩ :
          TaskRecord).upscale &&
        (id == (⟨videoKeyOf es.now img.name (parseUpscale form.upscaleField),
          es.r2PublicUrl, parseUpscale form.upscaleField, id⟩ :
            TaskRecord).originalTaskId)) = false := by
      simp [hfalse]
    rw [pollStatus_finalize id _ e1 _ u p1 p2
      (lookupRecord_of_direct _ id _ _ hg) hguard p5 p6 p7 p8]
    dsimp only
    simp [List.filter, Effect.isBucketPut, hfalse]
  · intro e1 e2 newId u htrue hne p1 p2 p6 q1 q2 q5 q6 q7 q8
    have hguard1 : ((⟨videoKeyOf es.now img.name (parseUpscale form.upscaleField),
        es.r2PublicUrl, parseUpscale form.upscaleField, id⟩ :
          TaskRecord).upscale &&
        (id == (⟨videoKeyOf es.now img.name (parseUpscale form.upscaleField),
          es.r2PublicUrl, parseUpscale form.upscaleField, id⟩ :
            TaskRecord).originalTaskId)) = true := by
      simp [htrue]
    rw [pollStatus_upscale id _ e1 _ newId p1 p2
      (lookupRecord_of_direct _ id _ _ hg) hguard1 p6]
    dsimp only
    have hget2 : kvGet (kvPut (kvPut kv id
        ⟨videoKeyOf es.now img.name (parseUpscale form.upscaleField),
          es.r2PublicUrl, parseUpscale form.upscaleField, id⟩) newId
        ⟨videoKeyOf es.now img.name (parseUpscale form.upscaleField),
          es.r2PublicUrl, parseUpscale form.upscaleField, id⟩) newId
        = some ⟨videoKeyOf es.now img.name (parseUpscale form.upscaleField),
            es.r2PublicUrl, parseUpscale form.upscaleField, id⟩ := by
      rw [kvGet_kvPut]
      simp
    have hguard2 : ((⟨videoKeyOf es.now img.name (parseUpscale form.upscaleField),
        es.r2PublicUrl, parseUpscale form.upscaleField, id⟩ :
          TaskRecord).upscale &&
        (newId == (⟨videoKeyOf es.now img.name (parseUpscale form.upscaleField),
          es.r2PublicUrl, parseUpscale form.upscaleField, id⟩ :
            TaskRecord).originalTaskId)) = false := by
      simp [hne]
    rw [pollStatus_finalize newId _ e2 _ u q1 q2
      (lookupRecord_of_direct _ newId _ _ hget2) hguard2 q5 q6 q7 q8]
    dsimp only
    constructor
    · rw [hget2]
      simp [htrue]
    · simp [List.filter, Effect.isBucketPut, htrue]

/-- Witness for C4: a concrete accepted submission with upscale requested. -/
theorem destination_key_round_trip_witness :
    (kvGet (submit upForm [] okSubmitEnv).kv "t1").map TaskRecord.videoKey
        = some (videoKeyOf okSubmitEnv.now "cat.jpg"
            (parseUpscale upForm.upscaleField))
    ∧ (∀ (e1 : PollEnv) (u : String),
        parseUpscale upForm.upscaleField = false →
        e1.providerOk = true → e1.provider.status = "SUCCEEDED" →
        e1.provider.output.head? = some u → u ≠ "" →
        e1.downloadOk = true → e1.storePutOk = true →
        (pollStatus "t1" (submit upForm [] okSubmitEnv).kv e1).effects.filter
            Effect.isBucketPut
          = [Effect.bucketPut (videoKeyOf okSubmitEnv.now "cat.jpg" false)
              "video/mp4"])
    ∧ (∀ (e1 e2 : PollEnv) (newId u : String),
        parseUpscale upForm.upscaleField = true → newId ≠ "t1" →
        e1.providerOk = true → e1.provider.status = "SUCCEEDED" →
        e1.upscaleResult = Except.ok newId →
        e2.providerOk = true → e2.provider.status = "SUCCEEDED" →
        e2.provider.output.head? = some u → u ≠ "" →
        e2.downloadOk = true → e2.storePutOk = true →
        (kvGet (pollStatus "t1" (submit upForm [] okSubmitEnv).kv e1).kv
              newId).map TaskRecord.videoKey
          = some (videoKeyOf okSubmitEnv.now "cat.jpg" true)
        ∧ (pollStatus newId
              (pollStatus "t1" (submit upForm [] okSubmitEnv).kv e1).kv
                e2).effects.filter Effect.isBucketPut
          = [Effect.bucketPut (videoKeyOf okSubmitEnv.now "cat.jpg" true)
              "video/mp4"]) :=
  destination_key_round_trip upForm [] okSubmitEnv ⟨"cat.jpg", "image/jpeg"⟩
    "zoom in" "t1" "PENDING" rfl (by decide) rfl rfl rfl

/-- The proposition claim C9 asserts of the seed expression: every integer
in the closed range from 0 to 4294967295 is a possible value of
Math.floor(Math.random() * 4294967295), with the random draw ranging over
the half-open unit interval. -/
def seedCoversFullRange : Prop :=
  ∀ k : ℕ, k ≤ 4294967295 → ∃ q : ℚ, 0 ≤ q ∧ q < 1 ∧ seedOf q = (k : ℤ)

/-- C9 (counterexample): the value 4294967295 is unreachable — the random
draw is strictly below 1, so the product is strictly below 4294967295 and
its floor is at most 4294967294; the claimed full 32-bit range is wrong. -/
theorem seed_range_top_unreachable : ¬ seedCoversFullRange := by
  intro h
  obtain ⟨q, h0, h1, hq⟩ := h 4294967295 le_rfl
  have hN : (0 : ℚ) < 4294967295 := by norm_num
  have hle : ((4294967295 : ℤ) : ℚ) ≤ q * 4294967295 := by
    apply Int.le_floor.mp
    rw [seedOf] at hq
    rw [hq]
    norm_num
  have hlt : q * 4294967295 < 1 * 4294967295 :=
    mul_lt_mul_of_pos_right h1 hN
  push_cast at hle
  linarith

/-- C9 (amended): the seed is uniform over the integers 0 to 4294967294:
every seed lies in that range, every value of the range is attained, and —
with the random draw uniform on the half-open unit interval — each value k
is produced exactly on the subinterval from k/4294967295 up to
(k+1)/4294967295, so all 4294967295 values carry intervals of equal length
and are equally likely; 4294967295 itself is never produced. -/
theorem seed_uniform_over_range (k : ℕ) (hk : k ≤ 4294967294)
    (q : ℚ) (h0 : 0 ≤ q) (h1 : q < 1) :
    (0 ≤ seedOf q ∧ seedOf q ≤ 4294967294)
    ∧ (0 ≤ (k : ℚ) / 4294967295 ∧ (k : ℚ) / 4294967295 < 1
        ∧ seedOf ((k : ℚ) / 4294967295) = (k : ℤ))
    ∧ (seedOf q = (k : ℤ) ↔
        (k : ℚ) / 4294967295 ≤ q ∧ q < ((k : ℚ) + 1) / 4294967295) := by
  have hN : (0 : ℚ) < 4294967295 := by norm_num
  have hkQ : (k : ℚ) < 4294967295 := by
    exact_mod_cast Nat.lt_succ_of_le hk
  refine ⟨⟨?_, ?_⟩, ⟨?_, ?_, ?_⟩, ?_⟩
  · exact Int.floor_nonneg.mpr (mul_nonneg h0 (le_of_lt hN))
  · have hmul : q * 4294967295 < 4294967295 := by nlinarith
    have hlt : seedOf q < 4294967295 := by
      rw [seedOf]
      apply Int.floor_lt.mpr
      push_cast
      linarith
    omega
  · positivity
  · rw [div_lt_one hN]
    exact hkQ
  · rw [seedOf, div_mul_cancel₀]
    · exact Int.floor_natCast k
    · norm_num
  · rw [seedOf, Int.floor_eq_iff, div_le_iff₀ hN, lt_div_iff₀ hN]
    push_cast
    constructor
    · exact fun hx => ⟨hx.1, hx.2⟩
    · exact fun hx => ⟨hx.1, hx.2⟩

/-- Witness for the amended C9 at the draw 0 and the value 0. -/
theorem seed_uniform_over_range_witness :
    (0 ≤ seedOf 0 ∧ seedOf 0 ≤ 4294967294)
    ∧ (0 ≤ ((0 : ℕ) : ℚ) / 4294967295 ∧ ((0 : ℕ) : ℚ) / 4294967295 < 1
        ∧ seedOf (((0 : ℕ) : ℚ) / 4294967295) = ((0 : ℕ) : ℤ))
    ∧ (seedOf 0 = ((0 : ℕ) : ℤ) ↔
        ((0 : ℕ) : ℚ) / 4294967295 ≤ 0
        ∧ (0 : ℚ) < (((0 : ℕ) : ℚ) + 1) / 4294967295) :=
  seed_uniform_over_range 0 (Nat.zero_le _) 0 le_rfl zero_lt_one

end RunwayR2
